import Mathlib

/-!
# Verification of the audio visualiser service

A shallow embedding of the repository (FastAPI app `app/main.py`, job
registry `app/services/jobs.py`, and render command builder
`app/services/ffmpeg.py`) together with theorems settling the stated
claims about it.

Python-level conventions of the model:
* Python `HTTPException(status_code=..., detail=...)` becomes the
  `HTTPError` structure, and a function that may raise it returns
  `Except HTTPError _`.
* Python strings are Lean `String`s; the Unicode-sensitive operations
  (`str.lower`, `str.strip`, `int(...)`) are modelled at ASCII fidelity,
  which covers every value the claims speak about.
* `Optional[T]` arguments become `Option T`; Python truthiness of an
  optional string (`if not colors`) is `none` or the empty string.
-/

/-- Model of `fastapi.HTTPException`: a status code and a detail string. -/
structure HTTPError where
  status_code : Nat
  detail : String
deriving Repr, DecidableEq

/-! ## Python string primitives -/

/-- Python `str.split(sep, 1)` for a single-character separator, over
character lists: split at the first occurrence only. -/
def splitOnceChars (c : Char) (cs : List Char) : List (List Char) :=
  match cs.span (fun x => x ≠ c) with
  | (pre, []) => [pre]
  | (pre, _ :: rest) => [pre, rest]

/-- Python `str.split(sep, 1)` for a single-character separator. -/
def pySplitOnce (s : String) (c : Char) : List String :=
  (splitOnceChars c s.toList).map (fun l => String.mk l)

/-- Python `str.split(sep)` for a single-character separator, over
character lists: split at every occurrence, keeping empty pieces
(`"".split(",") == [""]`, `",".split(",") == ["", ""]`). -/
def splitAllChars (c : Char) : List Char → List (List Char)
  | [] => [[]]
  | x :: rest =>
    match splitAllChars c rest with
    | [] => if x = c then [[], []] else [[x]]
    | h :: t => if x = c then [] :: h :: t else (x :: h) :: t

/-- Python `str.split(sep)` for a single-character separator. -/
def pySplitAll (s : String) (c : Char) : List String :=
  (splitAllChars c s.toList).map (fun l => String.mk l)

/-- Python `str.replace(a, b)` where both arguments are single
characters. -/
def pyReplaceChar (s : String) (a b : Char) : String :=
  String.mk (s.toList.map (fun c => if c = a then b else c))

/-- Python `str.lower()` (ASCII model). -/
def pyLower (s : String) : String :=
  String.mk (s.toList.map Char.toLower)

/-- Python `str.strip()` (ASCII-whitespace model). -/
def pyStrip (s : String) : String :=
  String.mk
    (((s.toList.dropWhile Char.isWhitespace).reverse.dropWhile Char.isWhitespace).reverse)

/-- Running value of a digit run in Python `int(...)`, where single
underscores are allowed between digits (`int("1_0") == 10`, while
`int("1__0")`, `int("1_")`, `int("_1")` all raise `ValueError`). -/
def pyDigitsAux (acc : Nat) : List Char → Option Nat
  | [] => some acc
  | '_' :: c :: rest =>
    if c.isDigit then pyDigitsAux (acc * 10 + (c.toNat - 48)) rest else none
  | c :: rest =>
    if c.isDigit then pyDigitsAux (acc * 10 + (c.toNat - 48)) rest else none

/-- A nonempty digit run with optional single underscores between
digits, as accepted by Python `int(...)` after sign handling. -/
def pyDigits : List Char → Option Nat
  | [] => none
  | c :: rest => if c.isDigit then pyDigitsAux (c.toNat - 48) rest else none

/-- Sign handling of Python `int(...)`. -/
def pyIntOfChars : List Char → Option Int
  | '+' :: rest => (pyDigits rest).map Int.ofNat
  | '-' :: rest => (pyDigits rest).map (fun n => -(n : Int))
  | cs => (pyDigits cs).map Int.ofNat

/-- Python `int(s)`: strip surrounding whitespace, then an optional
sign followed by a digit run; `none` models `ValueError`. -/
def pyInt (s : String) : Option Int :=
  pyIntOfChars
    (((s.toList.dropWhile Char.isWhitespace).reverse.dropWhile Char.isWhitespace).reverse)

/-- The final path component, as `pathlib.Path(filename).name` for the
plain filenames the service receives: the part after the last `/`
separator (trailing separators ignored). -/
def pathNameOf (filename : String) : String :=
  ((pySplitAll filename '/').filter (fun p => p ≠ "")).getLastD ""

/-- `pathlib.PurePath.suffix` on a path name: the substring from the
rightmost dot, provided that dot is neither the first nor the last
character of the name; otherwise the empty string. -/
def pySuffix (name : String) : String :=
  match name.toList.reverse.span (fun x => x ≠ '.') with
  | (_, []) => ""
  | (revTail, _ :: revInit) =>
    if revInit = [] ∨ revTail = [] then "" else String.mk ('.' :: revTail.reverse)

/-! ## `app/services/ffmpeg.py` -/

/-- `parse_resolution`: lower-case, split once on `x`, parse both
halves as Python integers; otherwise HTTP 400 naming the input. -/
def parse_resolution (resolution : String) : Except HTTPError (Int × Int) :=
  match pySplitOnce (pyLower resolution) 'x' with
  | [width_str, height_str] =>
    match pyInt width_str, pyInt height_str with
    | some w, some h => .ok (w, h)
    | _, _ => .error ⟨400, "Invalid resolution: " ++ resolution⟩
  | _ => .error ⟨400, "Invalid resolution: " ++ resolution⟩

/-- `parse_color_list`: falsy input gives `[]`; else treat `|` as `,`,
split on `,`, trim each token, drop empty tokens. -/
def parse_color_list (colors : Option String) : List String :=
  match colors with
  | none => []
  | some s =>
    if s = "" then []
    else ((pySplitAll (pyReplaceChar s '|' ',') ',').map pyStrip).filter
      (fun item => item ≠ "")

/-- The default 4-color palette for the `siri` style. -/
def sirDefaultPalette : List String := ["#3b82f6", "#22c55e", "#f97316", "#ec4899"]

/-- The palette used by the `siri` branch of `build_filter_chain`:
the parsed color list, replaced by the default palette when empty,
then capped at 4 entries. -/
def sirPalette (colors : Option String) : List String :=
  let palette := parse_color_list colors
  let palette := if palette = [] then sirDefaultPalette else palette
  palette.take 4

/-- The overlay expression shared by `wave`, `spectrum` and `siri`. -/
def plainOverlay : String := "overlay=format=auto:shortest=1"

/-- The centering overlay expression used by `ripple`. -/
def centerOverlay : String := "overlay=x=(W-w)/2:y=(H-h)/2:format=auto:shortest=1"

/-- `build_filter_chain` from `app/services/ffmpeg.py`: turns the render
options into the `filter_complex` string and the extra input arguments.
The `start`, `duration` parameters of the Python function are accepted
there but unused by the filter construction and are omitted here. The
returned triple of the style dispatch is (filter steps, foreground
label, overlay expression), mirroring the Python locals `filters`,
`fg_label`, `overlay_expr` at the end of the `if`/`elif` chain. -/
def build_filter_chain (style resolution : String) (fps : Int) (color mode : String)
    (colors : Option String) (background_color : Option String)
    (cover_image : Option String) (normalize : Bool) :
    Except HTTPError (String × List String) :=
  let inputs : List String :=
    match cover_image with
    | some img => ["-loop", "1", "-i", img]
    | none => []
  match parse_resolution resolution with
  | .error e => .error e
  | .ok (width, height) =>
    let styleResult : Except HTTPError (List String × String × String) :=
      if style = "wave" ∨ style = "spectrum" ∨ style = "ripple" then
        let audio_chain : List String := if normalize then ["loudnorm"] else []
        let (audio_chain, overlay_expr) :=
          if style = "wave" then
            let wave_opts := ["s=" ++ resolution, "mode=" ++ mode, "rate=" ++ toString fps]
            let wave_opts := if color ≠ "" then wave_opts ++ ["colors=" ++ color] else wave_opts
            (audio_chain ++ ["showwaves=" ++ String.intercalate ":" wave_opts], plainOverlay)
          else if style = "spectrum" then
            let spec_opts := ["s=" ++ resolution, "mode=combined", "color=intensity",
              "slide=scroll", "win_func=hann", "rotation=0"]
            (audio_chain ++ ["showspectrum=" ++ String.intercalate ":" spec_opts], plainOverlay)
          else
            let square_size := min width height
            let ripple_resolution := toString square_size ++ "x" ++ toString square_size
            let wave_opts := ["s=" ++ ripple_resolution, "mode=cline", "rate=" ++ toString fps]
            let wave_opts := if color ≠ "" then wave_opts ++ ["colors=" ++ color] else wave_opts
            (audio_chain ++
              ["showwaves=" ++ String.intercalate ":" wave_opts,
               "format=rgba",
               "v360=input=rectilinear:output=ball:w=" ++ toString square_size ++
                 ":h=" ++ toString square_size,
               "gblur=sigma=2"],
             centerOverlay)
        let audio_filter := String.intercalate "," audio_chain
        .ok (["[0:a]" ++ audio_filter ++ "[fg]"], "fg", overlay_expr)
      else if style = "siri" then
        let palette := sirPalette colors
        let split_chain := if normalize then "loudnorm," else ""
        let splits := String.join ((List.range palette.length).map
          (fun i => "[a" ++ toString i ++ "]"))
        let splitFilter :=
          "[0:a]" ++ split_chain ++ "asplit=" ++ toString palette.length ++ splits
        let waveFilters := palette.enum.map (fun p =>
          let wave_opts := ["s=" ++ resolution, "mode=cline", "rate=" ++ toString fps,
            "colors=" ++ p.2]
          "[a" ++ toString p.1 ++ "]showwaves=" ++ String.intercalate ":" wave_opts ++
            ",format=rgba,colorchannelmixer=aa=0.7,gblur=sigma=1.5[w" ++ toString p.1 ++ "]")
        let mixFilters := (List.range (palette.length - 1)).map (fun i =>
          let idx := i + 1
          let current := if idx = 1 then "w0" else "mix" ++ toString (idx - 1)
          "[" ++ current ++ "][w" ++ toString idx ++ "]" ++ plainOverlay ++
            "[mix" ++ toString idx ++ "]")
        let fg_label :=
          if palette.length = 1 then "w0" else "mix" ++ toString (palette.length - 1)
        .ok (splitFilter :: waveFilters ++ mixFilters, fg_label, plainOverlay)
      else
        .error ⟨400, "Unknown style"⟩
    match styleResult with
    | .error e => .error e
    | .ok (styleFilters, fg_label, overlay_expr) =>
      let bg_filter :=
        match cover_image with
        | some _ => "[1:v]scale=" ++ resolution ++ "[bg]"
        | none =>
          let bg :=
            match background_color with
            | some b => if b = "" then "black" else b
            | none => "black"
          "color=c=" ++ bg ++ ":s=" ++ resolution ++ ":r=" ++ toString fps ++ "[bg]"
      let filters :=
        styleFilters ++ [bg_filter, "[bg][" ++ fg_label ++ "]" ++ overlay_expr ++ "[outv]"]
      .ok (String.intercalate ";" filters, inputs)

/-- `render_visualization` up to (and excluding) process execution: the
full ffmpeg argument list it assembles, or the `HTTPError` raised by
`build_filter_chain` before any command exists. The numeric `start` and
`duration` options appear in the command only through `str(...)`, so
they are taken here in already-rendered form. -/
def render_visualization_cmd (input_audio output_video : String)
    (style resolution : String) (fps : Int) (color mode : String)
    (colors : Option String) (background_color : String)
    (cover_image : Option String) (start duration : Option String)
    (normalize : Bool) : Except HTTPError (List String) :=
  match build_filter_chain style resolution fps color mode colors
      (some background_color) cover_image normalize with
  | .error e => .error e
  | .ok (filter_complex, extra_inputs) =>
    let cmd := ["ffmpeg", "-y", "-i", input_audio] ++ extra_inputs
    let cmd := cmd ++ (match start with | some s => ["-ss", s] | none => [])
    let cmd := cmd ++ (match duration with | some d => ["-t", d] | none => [])
    let cmd := cmd ++ ["-filter_complex", filter_complex, "-map", "[outv]", "-map", "0:a",
      "-c:v", "libx264", "-pix_fmt", "yuv420p", "-c:a", "aac", "-b:a", "192k", "-shortest",
      output_video]
    .ok cmd

/-! ## `app/services/jobs.py` -/

/-- One job record of the in-memory store: `status`, `output`, `error`
fields of the Python dict, where `None` is `none`. -/
structure JobRecord where
  status : String
  output : Option String
  error : Option String
deriving Repr, DecidableEq

/-- The in-memory `_jobs` store; insertion order front-first. -/
abbrev JobStore := List (String × JobRecord)

/-- `get_job`: the record for an id, or `none` (the empty dict) when
the id is unknown. -/
def get_job (store : JobStore) (job_id : String) : Option JobRecord :=
  (store.find? (fun p => p.1 = job_id)).map Prod.snd

/-- The field mutation performed by `update_job` on one record: status
is always overwritten; output and error only when the corresponding
argument is not `None`. -/
def applyUpdate (r : JobRecord) (status : String) (output err : Option String) : JobRecord :=
  { status := status
    output := match output with | some o => some o | none => r.output
    error := match err with | some e => some e | none => r.error }

/-- `update_job`: mutate the record of `job_id` in place; a no-op when
the id is unknown. -/
def update_job (store : JobStore) (job_id : String) (status : String)
    (output err : Option String) : JobStore :=
  store.map (fun p => if p.1 = job_id then (p.1, applyUpdate p.2 status output err) else p)

/-- The record `create_job` installs for a fresh job. -/
def initialJobRecord : JobRecord := ⟨"queued", none, none⟩

/-- The store mutation of `create_job`: insert the fresh id with the
initial record (the generated uuid is the `job_id` argument). -/
def create_job (store : JobStore) (job_id : String) : JobStore :=
  (job_id, initialJobRecord) :: store

/-- The outcome of one run of a job task: `ok` with the produced
output path, or `error` with the textual message of the raised
exception. -/
abbrev TaskOutcome := Except String String

/-- The store after the scheduled `wrapper` has marked the job
`running`, before the task is invoked. -/
def wrapperRunning (store : JobStore) (job_id : String) : JobStore :=
  update_job store job_id "running" none none

/-- The store after the scheduled `wrapper` finishes: on task success
the job is `done` with the output path; on any task exception it is
`error` with the message, and the wrapper returns normally (the
exception is absorbed; this model is a total function). -/
def wrapperFinal (store : JobStore) (job_id : String) (outcome : TaskOutcome) : JobStore :=
  match outcome with
  | .ok output_path => update_job (wrapperRunning store job_id) job_id "done" (some output_path) none
  | .error exc => update_job (wrapperRunning store job_id) job_id "error" none (some exc)

/-- The record states a job created by `create_job` passes through, in
order: right after creation, after the wrapper marks it running, and
after the wrapper completes with the given task outcome. -/
def jobRecordStates (store : JobStore) (job_id : String) (outcome : TaskOutcome) :
    List (Option JobRecord) :=
  let s0 := create_job store job_id
  [get_job s0 job_id,
   get_job (wrapperRunning s0 job_id) job_id,
   get_job (wrapperFinal s0 job_id outcome) job_id]

/-! ## `app/main.py` -/

/-- Accepted audio extensions. -/
def ALLOWED_AUDIO_EXTS : List String := [".mp3", ".wav", ".m4a", ".ogg"]

/-- Accepted cover-image extensions. -/
def ALLOWED_IMAGE_EXTS : List String := [".png", ".jpg", ".jpeg"]

/-- `MAX_UPLOAD_SIZE_MB = float(os.getenv("MAX_UPLOAD_SIZE_MB", "50"))`,
with the environment value modelled as an exact rational number of
megabytes (`none` when the variable is unset). -/
def MAX_UPLOAD_SIZE_MB (envValue : Option ℚ) : ℚ := envValue.getD 50

/-- `validate_file`: the extension of the filename, lower-cased, must
be in the allowed set, else HTTP 400 naming the rejected extension. -/
def validate_file (filename : String) (allowed : List String) : Except HTTPError Unit :=
  let ext := pyLower (pySuffix (pathNameOf filename))
  if allowed.contains ext then .ok ()
  else .error ⟨400, "Unsupported file type: " ++ ext⟩

/-- The read-check-write loop of `save_upload` over the byte counts of
the 1 MiB reads (`size` is the running count so far); returns the final
byte count on success. -/
def save_upload_go (limit_mb : ℚ) (size : Nat) : List Nat → Except HTTPError Nat
  | [] => .ok size
  | c :: rest =>
    if ((size + c : ℕ) : ℚ) > limit_mb * 1024 * 1024 then .error ⟨413, "File too large"⟩
    else save_upload_go limit_mb (size + c) rest

/-- `save_upload` on an uploaded stream, represented by the list of
chunk byte counts its reads produce. -/
def save_upload (limit_mb : ℚ) (chunks : List Nat) : Except HTTPError Nat :=
  save_upload_go limit_mb 0 chunks

/-- The extension-validation part of the `upload` endpoint: the audio
filename is always validated against the audio set; the cover filename
only when a cover part with a non-empty filename is supplied. -/
def uploadValidation (audioFilename : String) (coverFilename : Option String) :
    Except HTTPError Unit :=
  match validate_file audioFilename ALLOWED_AUDIO_EXTS with
  | .error e => .error e
  | .ok _ =>
    match coverFilename with
    | some cf => if cf ≠ "" then validate_file cf ALLOWED_IMAGE_EXTS else .ok ()
    | none => .ok ()

/-- Model of `fastapi.responses.FileResponse`: served path, media type
and suggested download filename. -/
structure FileResponseModel where
  path : String
  media_type : String
  filename : String
deriving Repr, DecidableEq

/-- The `/status/{job_id}` endpoint: 404 for an unknown id (the falsy
empty dict from `get_job`), the job record otherwise. -/
def statusEndpoint (store : JobStore) (job_id : String) : Except HTTPError JobRecord :=
  match get_job store job_id with
  | none => .error ⟨404, "Unknown job id"⟩
  | some job => .ok job

/-- The `/download/{job_id}` endpoint. `OUTPUT_DIR` is rendered as the
literal directory name `outputs`, and existence of the output file on
disk is the boolean `file_on_disk`. -/
def download (store : JobStore) (job_id : String) (file_on_disk : Bool) :
    Except HTTPError FileResponseModel :=
  match get_job store job_id with
  | none => .error ⟨404, "Unknown job id"⟩
  | some job =>
    if job.status ≠ "done" then .error ⟨400, "Job not completed yet"⟩
    else if ¬ file_on_disk then .error ⟨404, "File not found"⟩
    else .ok ⟨"outputs/" ++ job_id ++ ".mp4", "video/mp4", job_id ++ ".mp4"⟩

/-! ## Spec-side step definitions

These follow the wording of spec section 4.2 and are compared with
`build_filter_chain` in the refinement theorems: one definition per
described step, assembled in the order under examination. -/

/-- Spec 4.2 background stream: a cover image is scaled to the target
resolution; otherwise a solid-color source parameterized by the
background color (default `black`), the resolution and the frame
rate; either way producing `bg`. -/
def specBgStep (resolution : String) (fps : Int)
    (background_color cover_image : Option String) : String :=
  match cover_image with
  | some _ => "[1:v]scale=" ++ resolution ++ "[bg]"
  | none =>
    let bg :=
      match background_color with
      | some b => if b = "" then "black" else b
      | none => "black"
    "color=c=" ++ bg ++ ":s=" ++ resolution ++ ":r=" ++ toString fps ++ "[bg]"

/-- Spec 4.2 `wave` foreground chain: optional loudness normalization,
then a waveform step sized to the resolution with the requested drawing
mode, frame rate, and colors (only when non-empty), producing `fg`. -/
def specWaveFgStep (resolution : String) (fps : Int) (color mode : String)
    (normalize : Bool) : String :=
  let wave_opts := ["s=" ++ resolution, "mode=" ++ mode, "rate=" ++ toString fps]
  let wave_opts := if color ≠ "" then wave_opts ++ ["colors=" ++ color] else wave_opts
  "[0:a]" ++ String.intercalate ","
    ((if normalize then ["loudnorm"] else []) ++
     ["showwaves=" ++ String.intercalate ":" wave_opts]) ++ "[fg]"

/-- Spec 4.2 `spectrum` foreground chain: optional normalization, then
a spectrum step with the fixed parameter set, producing `fg`. -/
def specSpectrumFgStep (resolution : String) (normalize : Bool) : String :=
  "[0:a]" ++ String.intercalate ","
    ((if normalize then ["loudnorm"] else []) ++
     ["showspectrum=" ++ String.intercalate ":"
        ["s=" ++ resolution, "mode=combined", "color=intensity", "slide=scroll",
         "win_func=hann", "rotation=0"]]) ++ "[fg]"

/-- Spec 4.2 `ripple` foreground chain: optional normalization, a
waveform step on a square canvas sized to the smaller resolution
dimension with mode forced to `cline`, an alpha-capable format
conversion, the spherical projection remap at the same square size, and
a Gaussian blur of sigma 2, producing `fg`. -/
def specRippleFgStep (fps : Int) (color : String)
    (normalize : Bool) (width height : Int) : String :=
  let square_size := min width height
  let square_resolution := toString square_size ++ "x" ++ toString square_size
  let wave_opts := ["s=" ++ square_resolution, "mode=cline", "rate=" ++ toString fps]
  let wave_opts := if color ≠ "" then wave_opts ++ ["colors=" ++ color] else wave_opts
  "[0:a]" ++ String.intercalate ","
    ((if normalize then ["loudnorm"] else []) ++
     ["showwaves=" ++ String.intercalate ":" wave_opts,
      "format=rgba",
      "v360=input=rectilinear:output=ball:w=" ++ toString square_size ++
        ":h=" ++ toString square_size,
      "gblur=sigma=2"]) ++ "[fg]"

/-- Spec 4.2 `siri` foreground chains: one split step fanning the audio
out to one copy per palette entry (normalization, when requested,
applied once before the split), one waveform layer per palette entry,
and the successive pairwise overlay steps. -/
def specSiriFgSteps (resolution : String) (fps : Int) (colors : Option String)
    (normalize : Bool) : List String :=
  let palette := sirPalette colors
  let split_chain := if normalize then "loudnorm," else ""
  let splits := String.join ((List.range palette.length).map
    (fun i => "[a" ++ toString i ++ "]"))
  ("[0:a]" ++ split_chain ++ "asplit=" ++ toString palette.length ++ splits) ::
    palette.enum.map (fun p =>
      "[a" ++ toString p.1 ++ "]showwaves=" ++ String.intercalate ":"
          ["s=" ++ resolution, "mode=cline", "rate=" ++ toString fps, "colors=" ++ p.2] ++
        ",format=rgba,colorchannelmixer=aa=0.7,gblur=sigma=1.5[w" ++ toString p.1 ++ "]") ++
    (List.range ((sirPalette colors).length - 1)).map (fun i =>
      let idx := i + 1
      let current := if idx = 1 then "w0" else "mix" ++ toString (idx - 1)
      "[" ++ current ++ "][w" ++ toString idx ++ "]" ++ plainOverlay ++
        "[mix" ++ toString idx ++ "]")

/-- Spec 4.2 `siri` final foreground label: the last overlay output, or
the single waveform layer when the palette has one entry. -/
def specSiriFgLabel (colors : Option String) : String :=
  if (sirPalette colors).length = 1 then "w0"
  else "mix" ++ toString ((sirPalette colors).length - 1)

/-- The style-specific foreground chain steps of spec 4.2. -/
def specFgSteps (style resolution : String) (fps : Int) (color mode : String)
    (colors : Option String) (normalize : Bool) (width height : Int) : List String :=
  if style = "wave" then [specWaveFgStep resolution fps color mode normalize]
  else if style = "spectrum" then [specSpectrumFgStep resolution normalize]
  else if style = "ripple" then [specRippleFgStep fps color normalize width height]
  else specSiriFgSteps resolution fps colors normalize

/-- The foreground label of spec 4.2: `fg`, or the `siri` mix label. -/
def specFgLabel (style : String) (colors : Option String) : String :=
  if style = "siri" then specSiriFgLabel colors else "fg"

/-- The overlay expression of spec 4.2: the centering expression for
`ripple`, the plain expression otherwise. -/
def specOverlayExpr (style : String) : String :=
  if style = "ripple" then centerOverlay else plainOverlay

/-- The final composite step of spec 4.2. -/
def specComposite (fg_label overlay_expr : String) : String :=
  "[bg][" ++ fg_label ++ "]" ++ overlay_expr ++ "[outv]"

/-- The extra input arguments: the loop/path pair for a cover image. -/
def specInputs (cover_image : Option String) : List String :=
  match cover_image with
  | some img => ["-loop", "1", "-i", img]
  | none => []

/-! ## Helper lemmas -/

/-- Structure of the result for style `wave`. -/
lemma build_wave_eq (resolution : String) (fps : Int) (color mode : String)
    (colors background_color cover_image : Option String) (normalize : Bool) (w h : Int)
    (hres : parse_resolution resolution = .ok (w, h)) :
    build_filter_chain "wave" resolution fps color mode colors background_color
        cover_image normalize
      = .ok (String.intercalate ";"
          [specWaveFgStep resolution fps color mode normalize,
           specBgStep resolution fps background_color cover_image,
           specComposite "fg" plainOverlay], specInputs cover_image) := by
  simp [build_filter_chain, hres, specWaveFgStep, specBgStep, specComposite, specInputs]

/-- Structure of the result for style `spectrum`. -/
lemma build_spectrum_eq (resolution : String) (fps : Int) (color mode : String)
    (colors background_color cover_image : Option String) (normalize : Bool) (w h : Int)
    (hres : parse_resolution resolution = .ok (w, h)) :
    build_filter_chain "spectrum" resolution fps color mode colors background_color
        cover_image normalize
      = .ok (String.intercalate ";"
          [specSpectrumFgStep resolution normalize,
           specBgStep resolution fps background_color cover_image,
           specComposite "fg" plainOverlay], specInputs cover_image) := by
  simp [build_filter_chain, hres, specSpectrumFgStep, specBgStep, specComposite, specInputs]

/-- Structure of the result for style `ripple`. -/
lemma build_ripple_eq (resolution : String) (fps : Int) (color mode : String)
    (colors background_color cover_image : Option String) (normalize : Bool) (w h : Int)
    (hres : parse_resolution resolution = .ok (w, h)) :
    build_filter_chain "ripple" resolution fps color mode colors background_color
        cover_image normalize
      = .ok (String.intercalate ";"
          [specRippleFgStep fps color normalize w h,
           specBgStep resolution fps background_color cover_image,
           specComposite "fg" centerOverlay], specInputs cover_image) := by
  simp [build_filter_chain, hres, specRippleFgStep, specBgStep, specComposite, specInputs]

/-- Structure of the result for style `siri`. -/
lemma build_siri_eq (resolution : String) (fps : Int) (color mode : String)
    (colors background_color cover_image : Option String) (normalize : Bool) (w h : Int)
    (hres : parse_resolution resolution = .ok (w, h)) :
    build_filter_chain "siri" resolution fps color mode colors background_color
        cover_image normalize
      = .ok (String.intercalate ";"
          (specSiriFgSteps resolution fps colors normalize ++
           [specBgStep resolution fps background_color cover_image,
            specComposite (specSiriFgLabel colors) plainOverlay]), specInputs cover_image) := by
  simp [build_filter_chain, hres, specSiriFgSteps, specSiriFgLabel, specBgStep, specComposite,
    specInputs]

/-- Any style outside the four known ones is rejected with 400. -/
lemma build_unknown_style (style resolution : String) (fps : Int) (color mode : String)
    (colors background_color cover_image : Option String) (normalize : Bool) (w h : Int)
    (hres : parse_resolution resolution = .ok (w, h))
    (hstyle : style ∉ (["wave", "spectrum", "ripple", "siri"] : List String)) :
    build_filter_chain style resolution fps color mode colors background_color
        cover_image normalize
      = .error ⟨400, "Unknown style"⟩ := by
  simp only [List.mem_cons, List.mem_singleton, not_or] at hstyle
  obtain ⟨h1, h2, h3, h4⟩ := hstyle
  simp [build_filter_chain, hres, h1, h2, h3, h4]

/-! ## Claim theorems -/

/-- C1 counterexample: at a concrete option set (style `wave`, defaults,
no cover) the filter-graph string produced by `build_filter_chain` is
not the semicolon join in the claimed order background step first, then
foreground chain, then composite: the code emits the foreground chain
first. -/
theorem buildFilterChain_bg_first_order_refuted :
    build_filter_chain "wave" "1280x720" 25 "white" "line" none (some "black") none false
      = .ok ("[0:a]showwaves=s=1280x720:mode=line:rate=25:colors=white[fg];color=c=black:s=1280x720:r=25[bg];[bg][fg]overlay=format=auto:shortest=1[outv]", [])
    ∧ "[0:a]showwaves=s=1280x720:mode=line:rate=25:colors=white[fg];color=c=black:s=1280x720:r=25[bg];[bg][fg]overlay=format=auto:shortest=1[outv]"
      ≠ String.intercalate ";"
          (specBgStep "1280x720" 25 (some "black") none ::
            specFgSteps "wave" "1280x720" 25 "white" "line" none false 1280 720 ++
            [specComposite (specFgLabel "wave" none) (specOverlayExpr "wave")]) :=
  ⟨rfl, by decide⟩

/-- C1 (amended): for every option set the Render Command Builder
accepts, the returned filter-graph string is the semicolon-joined
concatenation of, in this order: the style-specific chain(s) producing
the foreground label, then the background step (cover-image scale step
or solid-color source step) producing `bg`, and finally the
`[bg][fg-label]<overlay-expr>[outv]` composite step. -/
theorem buildFilterChain_assembly_order (style resolution : String) (fps : Int)
    (color mode : String) (colors background_color cover_image : Option String)
    (normalize : Bool) (w h : Int)
    (hstyle : style ∈ (["wave", "spectrum", "ripple", "siri"] : List String))
    (hres : parse_resolution resolution = .ok (w, h)) :
    build_filter_chain style resolution fps color mode colors background_color
        cover_image normalize
      = .ok (String.intercalate ";"
          (specFgSteps style resolution fps color mode colors normalize w h ++
           [specBgStep resolution fps background_color cover_image,
            specComposite (specFgLabel style colors) (specOverlayExpr style)]),
         specInputs cover_image) := by
  simp only [List.mem_cons, List.not_mem_nil, or_false] at hstyle
  rcases hstyle with h1 | h1 | h1 | h1 <;> subst h1
  · rw [build_wave_eq resolution fps color mode colors background_color cover_image
      normalize w h hres]
    simp [specFgSteps, specFgLabel, specOverlayExpr]
  · rw [build_spectrum_eq resolution fps color mode colors background_color cover_image
      normalize w h hres]
    simp [specFgSteps, specFgLabel, specOverlayExpr]
  · rw [build_ripple_eq resolution fps color mode colors background_color cover_image
      normalize w h hres]
    simp [specFgSteps, specFgLabel, specOverlayExpr]
  · rw [build_siri_eq resolution fps color mode colors background_color cover_image
      normalize w h hres]
    simp [specFgSteps, specFgLabel, specOverlayExpr]

/-- C1 witness: the amended assembly order at the concrete `wave`
option set. -/
theorem buildFilterChain_assembly_order_witness :
    build_filter_chain "wave" "1280x720" 25 "white" "line" none (some "black") none false
      = .ok (String.intercalate ";"
          (specFgSteps "wave" "1280x720" 25 "white" "line" none false 1280 720 ++
           [specBgStep "1280x720" 25 (some "black") none,
            specComposite (specFgLabel "wave" none) (specOverlayExpr "wave")]),
         specInputs none) :=
  buildFilterChain_assembly_order "wave" "1280x720" 25 "white" "line" none (some "black")
    none false 1280 720 (by decide) rfl

/-- C5: for every style outside wave/spectrum/ripple/siri, with a
parseable resolution, filter construction fails with 400 Unknown style,
and `render_visualization` fails with the same error before any ffmpeg
argument list is assembled (its result carries no command), so no
external process is invoked. -/
theorem unknownStyle_rejected_before_command (style resolution : String) (fps : Int)
    (color mode : String) (colors : Option String) (background_color : String)
    (cover_image : Option String) (input_audio output_video : String)
    (start duration : Option String) (normalize : Bool) (w h : Int)
    (hres : parse_resolution resolution = .ok (w, h))
    (hstyle : style ∉ (["wave", "spectrum", "ripple", "siri"] : List String)) :
    build_filter_chain style resolution fps color mode colors (some background_color)
        cover_image normalize = .error ⟨400, "Unknown style"⟩
    ∧ render_visualization_cmd input_audio output_video style resolution fps color mode
        colors background_color cover_image start duration normalize
      = .error ⟨400, "Unknown style"⟩ := by
  have hb := build_unknown_style style resolution fps color mode colors
    (some background_color) cover_image normalize w h hres hstyle
  exact ⟨hb, by simp [render_visualization_cmd, hb]⟩

/-- C5 witness: the style `bogus` at resolution `1280x720`. -/
theorem unknownStyle_rejected_before_command_witness :
    build_filter_chain "bogus" "1280x720" 25 "white" "line" none (some "black")
        none false = .error ⟨400, "Unknown style"⟩
    ∧ render_visualization_cmd "in.mp3" "out.mp4" "bogus" "1280x720" 25 "white" "line"
        none "black" none none none false = .error ⟨400, "Unknown style"⟩ :=
  unknownStyle_rejected_before_command "bogus" "1280x720" 25 "white" "line" none "black"
    none "in.mp3" "out.mp4" none none false 1280 720 rfl (by decide)

/-- C8: for style `ripple` with a parseable resolution, the waveform
and projection steps use a square canvas whose side is the minimum of
width and height, the waveform mode is `cline` regardless of the `mode`
option (which does not occur in the result), and the composite step
uses the centering overlay expression. -/
theorem ripple_square_canvas (resolution : String) (fps : Int) (color mode : String)
    (colors background_color cover_image : Option String) (normalize : Bool) (w h : Int)
    (hres : parse_resolution resolution = .ok (w, h)) :
    build_filter_chain "ripple" resolution fps color mode colors background_color
        cover_image normalize
      = .ok (String.intercalate ";"
          ["[0:a]" ++ String.intercalate ","
             ((if normalize then ["loudnorm"] else []) ++
              ["showwaves=" ++ String.intercalate ":"
                 (["s=" ++ (toString (min w h) ++ "x" ++ toString (min w h)), "mode=cline",
                   "rate=" ++ toString fps] ++
                  (if color = "" then [] else ["colors=" ++ color])),
               "format=rgba",
               "v360=input=rectilinear:output=ball:w=" ++ toString (min w h) ++
                 ":h=" ++ toString (min w h),
               "gblur=sigma=2"]) ++ "[fg]",
           specBgStep resolution fps background_color cover_image,
           "[bg][fg]overlay=x=(W-w)/2:y=(H-h)/2:format=auto:shortest=1[outv]"],
         specInputs cover_image) := by
  rw [build_ripple_eq resolution fps color mode colors background_color cover_image
    normalize w h hres]
  by_cases hc : color = "" <;>
    simp [specRippleFgStep, specComposite, centerOverlay, hc]

/-- C8 witness: resolution `1280x720` gives the square canvas `720x720`. -/
theorem ripple_square_canvas_witness :
    build_filter_chain "ripple" "1280x720" 25 "white" "line" none (some "black") none false
      = .ok (String.intercalate ";"
          ["[0:a]" ++ String.intercalate ","
             ((if False then ["loudnorm"] else []) ++
              ["showwaves=" ++ String.intercalate ":"
                 (["s=" ++ (toString (min (1280 : Int) 720) ++ "x" ++
                     toString (min (1280 : Int) 720)), "mode=cline", "rate=" ++ toString (25 : Int)] ++
                  (if "white" = "" then [] else ["colors=" ++ "white"])),
               "format=rgba",
               "v360=input=rectilinear:output=ball:w=" ++ toString (min (1280 : Int) 720) ++
                 ":h=" ++ toString (min (1280 : Int) 720),
               "gblur=sigma=2"]) ++ "[fg]",
           specBgStep "1280x720" 25 (some "black") none,
           "[bg][fg]overlay=x=(W-w)/2:y=(H-h)/2:format=auto:shortest=1[outv]"],
         specInputs none) := by
  have := ripple_square_canvas "1280x720" 25 "white" "line" none (some "black") none
    false 1280 720 rfl
  simpa using this

/-- Split at every comma or pipe, the one-pass formulation of the
color-list normalization of the spec (treating pipe as equivalent to
comma). -/
def splitEitherChars : List Char → List (List Char)
  | [] => [[]]
  | x :: rest =>
    match splitEitherChars rest with
    | [] => if x = ',' ∨ x = '|' then [[], []] else [[x]]
    | h :: t => if x = ',' ∨ x = '|' then [] :: h :: t else (x :: h) :: t

/-- The color-list normalization as worded in the spec: absent input
yields the empty list; otherwise split on comma or pipe, trim each
token, drop empty tokens (an empty input then also yields the empty
list, its lone empty token being dropped). -/
def specColorList (colors : Option String) : List String :=
  match colors with
  | none => []
  | some s =>
    ((splitEitherChars s.toList).map (fun l => pyStrip (String.mk l))).filter
      (fun item => item ≠ "")

lemma splitEitherChars_ne_nil (cs : List Char) : splitEitherChars cs ≠ [] := by
  cases cs with
  | nil => simp [splitEitherChars]
  | cons x rest =>
    simp only [splitEitherChars]
    cases splitEitherChars rest <;> by_cases hx : x = ',' ∨ x = '|' <;> simp [hx]

/-- Replacing pipes by commas and splitting on commas is the same as
splitting on either character. -/
lemma splitAllChars_replace (cs : List Char) :
    splitAllChars ',' (cs.map (fun c => if c = '|' then ',' else c))
      = splitEitherChars cs := by
  induction cs with
  | nil => rfl
  | cons x rest ih =>
    simp only [List.map_cons, splitAllChars, ih]
    rcases h : splitEitherChars rest with _ | ⟨hd, tl⟩
    · exact absurd h (splitEitherChars_ne_nil rest)
    · simp only [splitEitherChars, h]
      by_cases hx : x = '|'
      · subst hx; simp
      · by_cases hc : x = ','
        · subst hc; simp
        · simp [hx, hc]

/-- The replace-then-split normalization of the code agrees with the
one-pass description of the spec. -/
lemma parse_color_list_eq_spec (colors : Option String) :
    parse_color_list colors = specColorList colors := by
  cases colors with
  | none => rfl
  | some s =>
    by_cases hs : s = ""
    · subst hs; rfl
    · have h2 : splitAllChars ',' (pyReplaceChar s '|' ',').data = splitEitherChars s.data :=
        splitAllChars_replace s.data
      simp [parse_color_list, specColorList, hs, pySplitAll, List.map_map,
        Function.comp_def]
      rw [h2]

/-- C6: the optional colors string is normalized by treating pipe as
comma, splitting on comma, trimming tokens and dropping empty ones
(absent or empty input giving the empty list); for style `siri` an
empty parsed list is replaced by exactly the default palette, and the
palette actually used is the first at most 4 entries of the parsed
list. -/
theorem colorList_and_siriPalette :
    (∀ colors, parse_color_list colors = specColorList colors)
    ∧ parse_color_list none = []
    ∧ parse_color_list (some "") = []
    ∧ parse_color_list (some "#111111, #222222 | #333333,#444444,#555555")
        = ["#111111", "#222222", "#333333", "#444444", "#555555"]
    ∧ (∀ colors, parse_color_list colors = [] → sirPalette colors = sirDefaultPalette)
    ∧ (∀ colors, parse_color_list colors ≠ [] →
        sirPalette colors = (parse_color_list colors).take 4)
    ∧ sirDefaultPalette = ["#3b82f6", "#22c55e", "#f97316", "#ec4899"]
    ∧ sirPalette (some "#111111, #222222 | #333333,#444444,#555555")
        = ["#111111", "#222222", "#333333", "#444444"] := by
  refine ⟨parse_color_list_eq_spec, rfl, rfl, rfl, ?_, ?_, rfl, rfl⟩
  · intro colors h
    simp [sirPalette, h, sirDefaultPalette]
  · intro colors h
    simp [sirPalette, h]

/-- C6 witness: a two-entry list is used as given, and the default
palette is an instance of the empty-list fallback. -/
theorem colorList_and_siriPalette_witness :
    sirPalette (some "red,green") = ["red", "green"]
    ∧ sirPalette none = sirDefaultPalette := by
  constructor
  · have h := colorList_and_siriPalette.2.2.2.2.2.1 (some "red,green") (by decide)
    simpa using h
  · exact colorList_and_siriPalette.2.2.2.2.1 none rfl

/-- Whether lower-casing and splitting once on `x` yields two halves
that both parse as Python integers. -/
def resolutionWellFormed (resolution : String) : Bool :=
  match pySplitOnce (pyLower resolution) 'x' with
  | [a, b] => (pyInt a).isSome && (pyInt b).isSome
  | _ => false

/-- C7: resolution parsing lower-cases and splits once on `x`,
succeeding with the two halves as integers exactly when both parse
(`1280x720` and `720X1280` succeed as stated) and failing with 400
naming the invalid string otherwise (`abcxdef` fails). -/
theorem parse_resolution_behavior :
    parse_resolution "1280x720" = .ok (1280, 720)
    ∧ parse_resolution "720X1280" = .ok (720, 1280)
    ∧ parse_resolution "abcxdef" = .error ⟨400, "Invalid resolution: abcxdef"⟩
    ∧ (∀ s w h, parse_resolution s = .ok (w, h) ↔
        ∃ a b, pySplitOnce (pyLower s) 'x' = [a, b]
          ∧ pyInt a = some w ∧ pyInt b = some h)
    ∧ (∀ s, resolutionWellFormed s = false →
        parse_resolution s = .error ⟨400, "Invalid resolution: " ++ s⟩) := by
  refine ⟨rfl, rfl, rfl, ?_, ?_⟩
  · intro s w h
    unfold parse_resolution
    rcases hsp : pySplitOnce (pyLower s) 'x' with _ | ⟨a, _ | ⟨b, _ | ⟨c, t⟩⟩⟩ <;>
      simp_all
    rcases hia : pyInt a with _ | wa <;> rcases hib : pyInt b with _ | wb <;> simp_all
    constructor
    · rintro ⟨h1, h2⟩
      exact ⟨a, b, ⟨rfl, rfl⟩, by rw [hia, h1], by rw [hib, h2]⟩
    · rintro ⟨a1, b1, ⟨ha1, hb1⟩, h1, h2⟩
      subst ha1; subst hb1
      rw [hia] at h1; rw [hib] at h2
      exact ⟨Option.some.inj h1, Option.some.inj h2⟩
  · intro s hwf
    unfold resolutionWellFormed at hwf
    unfold parse_resolution
    rcases hsp : pySplitOnce (pyLower s) 'x' with _ | ⟨a, _ | ⟨b, _ | ⟨c, t⟩⟩⟩ <;>
      simp_all

/-- C7 witness: the failure branch applied to the concrete invalid
string. -/
theorem parse_resolution_behavior_witness :
    parse_resolution "99z99" = .error ⟨400, "Invalid resolution: 99z99"⟩ :=
  parse_resolution_behavior.2.2.2.2 "99z99" rfl

lemma get_job_create (store : JobStore) (job_id : String) :
    get_job (create_job store job_id) job_id = some initialJobRecord := by
  simp [get_job, create_job]

/-- C2: a job created through the registry starts at `queued` with
output and error absent; the wrapper marks it `running` before the task
runs; on task success it ends `done` with the produced output path and
no error; on a task exception it ends `error` with the textual message
and no output (the wrapper absorbs the exception: `wrapperFinal` is a
total function of the outcome). In every reachable state, output is set
iff the status is `done` and error is set iff the status is `error`. -/
theorem job_lifecycle (store : JobStore) (job_id : String) (outcome : TaskOutcome) :
    jobRecordStates store job_id outcome
      = [some ⟨"queued", none, none⟩,
         some ⟨"running", none, none⟩,
         some (match outcome with
           | .ok out => ⟨"done", some out, none⟩
           | .error exc => ⟨"error", none, some exc⟩)]
    ∧ (∀ orec ∈ jobRecordStates store job_id outcome, ∀ rec, orec = some rec →
        ((rec.output.isSome ↔ rec.status = "done")
          ∧ (rec.error.isSome ↔ rec.status = "error"))) := by
  have hmain : jobRecordStates store job_id outcome
      = [some ⟨"queued", none, none⟩,
         some ⟨"running", none, none⟩,
         some (match outcome with
           | .ok out => ⟨"done", some out, none⟩
           | .error exc => ⟨"error", none, some exc⟩)] := by
    cases outcome <;>
      simp [jobRecordStates, create_job, wrapperRunning, wrapperFinal, update_job, get_job,
        applyUpdate, initialJobRecord]
  refine ⟨hmain, ?_⟩
  intro orec hmem rec hrec
  subst hrec
  rw [hmain] at hmem
  cases outcome with
  | ok out =>
    simp at hmem
    rcases hmem with h | h | h <;> subst h <;> simp
  | error exc =>
    simp at hmem
    rcases hmem with h | h | h <;> subst h <;> simp

/-- C4: status lookup of an unknown id fails 404 Unknown job id (and a
known id returns its record); download of an unknown id fails the same
way; download of a known job not yet `done` fails 400 Job not completed
yet; download of a `done` job whose file is missing fails 404 File not
found; otherwise download returns the file with media type `video/mp4`
and filename `job_id.mp4`. -/
theorem status_download_behavior (store : JobStore) (job_id : String) (file_on_disk : Bool) :
    (get_job store job_id = none →
      statusEndpoint store job_id = .error ⟨404, "Unknown job id"⟩
      ∧ download store job_id file_on_disk = .error ⟨404, "Unknown job id"⟩)
    ∧ (∀ job, get_job store job_id = some job →
        statusEndpoint store job_id = .ok job)
    ∧ (∀ job, get_job store job_id = some job → job.status ≠ "done" →
        download store job_id file_on_disk = .error ⟨400, "Job not completed yet"⟩)
    ∧ (∀ job, get_job store job_id = some job → job.status = "done" →
        file_on_disk = false →
        download store job_id file_on_disk = .error ⟨404, "File not found"⟩)
    ∧ (∀ job, get_job store job_id = some job → job.status = "done" →
        file_on_disk = true →
        download store job_id file_on_disk
          = .ok ⟨"outputs/" ++ job_id ++ ".mp4", "video/mp4", job_id ++ ".mp4"⟩) := by
  refine ⟨?_, ?_, ?_, ?_, ?_⟩
  · intro h
    exact ⟨by simp [statusEndpoint, h], by simp [download, h]⟩
  · intro job h
    simp [statusEndpoint, h]
  · intro job h hst
    simp [download, h, hst]
  · intro job h hst hf
    subst hf
    simp [download, h, hst]
  · intro job h hst hf
    subst hf
    simp [download, h, hst]

/-- C4 witness: the unknown-id and successful-download branches at
concrete stores. -/
theorem status_download_behavior_witness :
    download [] "nojob" true = .error ⟨404, "Unknown job id"⟩
    ∧ download [("j1", ⟨"done", some "outputs/j1.mp4", none⟩)] "j1" true
        = .ok ⟨"outputs/j1.mp4", "video/mp4", "j1.mp4"⟩ :=
  ⟨((status_download_behavior [] "nojob" true).1 rfl).2,
   (status_download_behavior [("j1", ⟨"done", some "outputs/j1.mp4", none⟩)] "j1" true).2.2.2.2
     ⟨"done", some "outputs/j1.mp4", none⟩ rfl rfl rfl⟩

/-- The streaming check errors exactly when the final total exceeds the
limit, and otherwise returns the total, for any already-checked running
count. -/
lemma save_upload_go_characterization (limit_mb : ℚ) (chunks : List Nat) :
    ∀ size : Nat, (size : ℚ) ≤ limit_mb * 1024 * 1024 →
      ((save_upload_go limit_mb size chunks = .error ⟨413, "File too large"⟩
          ↔ ((size + chunks.sum : ℕ) : ℚ) > limit_mb * 1024 * 1024)
        ∧ (save_upload_go limit_mb size chunks = .ok (size + chunks.sum)
          ↔ ((size + chunks.sum : ℕ) : ℚ) ≤ limit_mb * 1024 * 1024)) := by
  induction chunks with
  | nil =>
    intro size hsize
    rw [List.sum_nil, Nat.add_zero]
    exact ⟨⟨fun hok => absurd hok (by simp [save_upload_go]),
      fun hgt => absurd hgt (not_lt.mpr hsize)⟩,
      iff_of_true rfl hsize⟩
  | cons c rest ih =>
    intro size hsize
    simp only [save_upload_go, List.sum_cons]
    by_cases hc : ((size + c : ℕ) : ℚ) > limit_mb * 1024 * 1024
    · rw [if_pos hc]
      have hsum : ((size + (c + rest.sum) : ℕ) : ℚ) > limit_mb * 1024 * 1024 := by
        have hmono : ((size + c : ℕ) : ℚ) ≤ ((size + (c + rest.sum) : ℕ) : ℚ) :=
          Nat.cast_le.mpr (by omega)
        linarith
      refine ⟨iff_of_true rfl hsum,
        ⟨fun herr => absurd herr (by simp), fun hle => absurd hle (not_le.mpr hsum)⟩⟩
    · rw [if_neg hc]
      have hle : ((size + c : ℕ) : ℚ) ≤ limit_mb * 1024 * 1024 := not_lt.mp hc
      have ih2 := ih (size + c) hle
      simpa only [Nat.add_assoc] using ih2

/-- C3: saving an uploaded stream fails with 413 File too large exactly
when the total byte count exceeds `MAX_UPLOAD_SIZE_MB` megabytes (1 MB
= 1,048,576 bytes), and succeeds for any stream at or below it; the
limit defaults to 50 MiB, is read from the environment as a possibly
fractional megabyte count, and the default limit is 52,428,800 bytes. -/
theorem save_upload_size_limit (limit_mb : ℚ) (chunks : List Nat)
    (hlim : 0 ≤ limit_mb) :
    (save_upload limit_mb chunks = .error ⟨413, "File too large"⟩
      ↔ ((chunks.sum : ℕ) : ℚ) > limit_mb * 1024 * 1024)
    ∧ (save_upload limit_mb chunks = .ok chunks.sum
      ↔ ((chunks.sum : ℕ) : ℚ) ≤ limit_mb * 1024 * 1024)
    ∧ MAX_UPLOAD_SIZE_MB none = 50
    ∧ (∀ q, MAX_UPLOAD_SIZE_MB (some q) = q)
    ∧ MAX_UPLOAD_SIZE_MB none * 1024 * 1024 = 52428800 := by
  have h0 : ((0 : ℕ) : ℚ) ≤ limit_mb * 1024 * 1024 := by positivity
  have hch := save_upload_go_characterization limit_mb chunks 0 h0
  simp only [Nat.zero_add] at hch
  exact ⟨hch.1, hch.2, rfl, fun q => rfl, by norm_num [MAX_UPLOAD_SIZE_MB]⟩

/-- C3 witness: a two-chunk stream totalling exactly the default 50 MiB
limit is accepted. -/
theorem save_upload_size_limit_witness :
    save_upload 50 [1048576, 51380224] = .ok 52428800 := by
  have h := (save_upload_size_limit 50 [1048576, 51380224] (by norm_num)).2.1
  rw [show ([1048576, 51380224] : List ℕ).sum = 52428800 from rfl] at h
  exact h.mpr (by norm_num)

/-- `validate_file` succeeds exactly on a lower-cased extension in the
allowed list. -/
lemma validate_file_ok_iff (filename : String) (allowed : List String) :
    validate_file filename allowed = .ok ()
      ↔ pyLower (pySuffix (pathNameOf filename)) ∈ allowed := by
  unfold validate_file
  by_cases hc : allowed.contains (pyLower (pySuffix (pathNameOf filename))) <;>
    simp_all

/-- `validate_file` fails with 400 naming the extension when it is not
allowed. -/
lemma validate_file_error_of_not_mem (filename : String) (allowed : List String)
    (h : pyLower (pySuffix (pathNameOf filename)) ∉ allowed) :
    validate_file filename allowed
      = .error ⟨400, "Unsupported file type: " ++ pyLower (pySuffix (pathNameOf filename))⟩ := by
  unfold validate_file
  simp [h]

/-- C9: audio upload validation passes exactly when the extension of
the filename compares case-insensitively into the accepted audio set and
otherwise fails 400 naming the extension; a cover with a non-empty
filename is checked the same way against the accepted image set. -/
theorem upload_extension_validation :
    (∀ filename, validate_file filename ALLOWED_AUDIO_EXTS = .ok ()
      ↔ pyLower (pySuffix (pathNameOf filename)) ∈ ALLOWED_AUDIO_EXTS)
    ∧ (∀ filename, pyLower (pySuffix (pathNameOf filename)) ∉ ALLOWED_AUDIO_EXTS →
        validate_file filename ALLOWED_AUDIO_EXTS
          = .error ⟨400, "Unsupported file type: "
              ++ pyLower (pySuffix (pathNameOf filename))⟩)
    ∧ (∀ filename, validate_file filename ALLOWED_IMAGE_EXTS = .ok ()
      ↔ pyLower (pySuffix (pathNameOf filename)) ∈ ALLOWED_IMAGE_EXTS)
    ∧ (∀ filename, pyLower (pySuffix (pathNameOf filename)) ∉ ALLOWED_IMAGE_EXTS →
        validate_file filename ALLOWED_IMAGE_EXTS
          = .error ⟨400, "Unsupported file type: "
              ++ pyLower (pySuffix (pathNameOf filename))⟩)
    ∧ (∀ audio cover, validate_file audio ALLOWED_AUDIO_EXTS = .ok () → cover ≠ "" →
        uploadValidation audio (some cover) = validate_file cover ALLOWED_IMAGE_EXTS)
    ∧ ALLOWED_AUDIO_EXTS = [".mp3", ".wav", ".m4a", ".ogg"]
    ∧ ALLOWED_IMAGE_EXTS = [".png", ".jpg", ".jpeg"]
    ∧ validate_file "song.MP3" ALLOWED_AUDIO_EXTS = .ok ()
    ∧ validate_file "song.txt" ALLOWED_AUDIO_EXTS
        = .error ⟨400, "Unsupported file type: .txt"⟩ := by
  refine ⟨fun f => validate_file_ok_iff f ALLOWED_AUDIO_EXTS,
    fun f => validate_file_error_of_not_mem f ALLOWED_AUDIO_EXTS,
    fun f => validate_file_ok_iff f ALLOWED_IMAGE_EXTS,
    fun f => validate_file_error_of_not_mem f ALLOWED_IMAGE_EXTS,
    ?_, rfl, rfl, rfl, rfl⟩
  intro audio cover hok hcov
  simp [uploadValidation, hok, hcov]

/-- C9 witness: the audio-set failure branch at a concrete rejected
name. -/
theorem upload_extension_validation_witness :
    validate_file "voice.webm" ALLOWED_AUDIO_EXTS
      = .error ⟨400, "Unsupported file type: .webm"⟩ := by
  have h := upload_extension_validation.2.1 "voice.webm" (by decide)
  simpa using h

/-- C10: a filename with no dot-separated extension, including the
dotfile `.mp3` consisting solely of a leading dot and an accepted
extension, has the empty string as its computed extension and is
therefore rejected with 400 by both validation sets. -/
theorem dotfile_empty_extension_rejected :
    pySuffix ".mp3" = ""
    ∧ pathNameOf ".mp3" = ".mp3"
    ∧ (∀ filename, pySuffix (pathNameOf filename) = "" →
        validate_file filename ALLOWED_AUDIO_EXTS = .error ⟨400, "Unsupported file type: "⟩
        ∧ validate_file filename ALLOWED_IMAGE_EXTS
            = .error ⟨400, "Unsupported file type: "⟩)
    ∧ validate_file ".mp3" ALLOWED_AUDIO_EXTS = .error ⟨400, "Unsupported file type: "⟩ := by
  refine ⟨rfl, rfl, ?_, rfl⟩
  intro filename h
  constructor <;> · unfold validate_file; rw [h]; rfl

/-- C10 witness: the general empty-extension rejection applied to the
dotfile `.wav`. -/
theorem dotfile_empty_extension_rejected_witness :
    validate_file ".wav" ALLOWED_AUDIO_EXTS = .error ⟨400, "Unsupported file type: "⟩ :=
  (dotfile_empty_extension_rejected.2.2.1 ".wav" rfl).1

/-- C2 witness: the reachable-state invariant applied to the first
reachable record of a concrete successful job. -/
theorem job_lifecycle_witness :
    ((⟨"queued", none, none⟩ : JobRecord).output.isSome
      ↔ (⟨"queued", none, none⟩ : JobRecord).status = "done")
    ∧ ((⟨"queued", none, none⟩ : JobRecord).error.isSome
      ↔ (⟨"queued", none, none⟩ : JobRecord).status = "error") :=
  (job_lifecycle [] "j" (.ok "outputs/j.mp4")).2 (some ⟨"queued", none, none⟩)
    (by decide) ⟨"queued", none, none⟩ rfl
